import Mathlib

/-!
Verification of the svgEditor padding-removal utility (src/svg_crop.py).

The script is embedded shallowly: per-path geometry extraction is treated as
an external collaborator (a path's bbox computation either yields a quadruple
(xmin, xmax, ymin, ymax) of user-space coordinates, modelled over the
rationals, or fails), file contents are modelled as already-fetched data, and
each observable side effect of the script (console prints, the XML parse, the
output write, directory creation) becomes an explicit event in a trace.
-/

/-- A per-path bounding box as returned by the collaborator's bbox() call:
(px_min, px_max, py_min, py_max), in that order (line 47 of the source). -/
abbrev PathBox := ℚ × ℚ × ℚ × ℚ

/-- The bbox dictionary built by calculate_bbox_with_svgpathtools
(lines 66-73 of the source). -/
structure BBox where
  xmin : ℚ
  ymin : ℚ
  width : ℚ
  height : ℚ
  xmax : ℚ
  ymax : ℚ
deriving DecidableEq, Repr

/-- One step of the aggregation loop (lines 43-58): a path whose bbox raised
is skipped (the except branch), the first valid bbox initializes the
accumulator, and later boxes are combined coordinate-wise with min and max. -/
def bboxFold (acc : Option PathBox) (pb : Option PathBox) : Option PathBox :=
  match pb with
  | none => acc
  | some v =>
    match acc with
    | none => some v
    | some a => some (min a.1 v.1, max a.2.1 v.2.1, min a.2.2.1 v.2.2.1, max a.2.2.2 v.2.2.2)

/-- Aggregation of the per-path boxes, lines 30-73 of the source.  The input
list holds one entry per path returned by svg2paths; a none entry stands for
a path whose bbox() call raised and was skipped.  An empty path list returns
None (line 37-38), and so does a list in which every bbox failed (line 60-61);
otherwise the union box and its derived width and height are returned. -/
def calculate_bbox_with_svgpathtools (paths : List (Option PathBox)) : Option BBox :=
  if paths.isEmpty then none
  else
    match paths.foldl bboxFold none with
    | none => none
    | some a =>
      some
      { xmin := a.1
        ymin := a.2.2.1
        width := a.2.1 - a.1
        height := a.2.2.2 - a.2.2.1
        xmax := a.2.1
        ymax := a.2.2.2 }

/-- The value of the root viewBox attribute.  An attribute coming in from an
arbitrary input document is an uninterpreted string (raw); the attribute the
script itself writes (line 139-140) is the four computed numbers space-joined,
kept structured here as vals so the numbers remain observable. -/
inductive ViewBoxAttr where
  | raw (s : String)
  | vals (x y w h : ℚ)
deriving DecidableEq, Repr

/-- An SVG document as the script observes it: the path geometry the
collaborator extracts from it, and the root attributes the script reads or
mutates (viewBox, width, height). -/
structure SvgDoc where
  paths : List (Option PathBox)
  viewBox : Option ViewBoxAttr
  width : Option String
  height : Option String
deriving DecidableEq, Repr

/-- The content of an input file: either it cannot be parsed as SVG/XML
(svg2paths and ET.parse raise on it), or it is a document. -/
inductive FileData where
  | malformed
  | doc (d : SvgDoc)
deriving DecidableEq, Repr

/-- One observable side effect of the script.  Each print statement of the
source gets its own constructor; parseXml is the ET.parse call of line 123,
writeFile the tree.write call of line 152, mkdirOutput the mkdir of line 186.
printSummary is vocabulary only: the shape a success_count/total_count
report would have; the source never emits it. -/
inductive Effect where
  | printProcessing (file : String)
  | printNoBBoxError (file : String)
  | printCalculatedBBox
  | printOldViewBox
  | printNewViewBox
  | parseXml (file : String)
  | writeFile (path : String) (d : SvgDoc)
  | printSaved (path : String)
  | printFound (n : Nat)
  | printNoFiles
  | mkdirOutput (dir : String)
  | printErrorProcessing (file : String)
  | printSummary (success : Nat) (total : Nat)
  | printMissingCapability
deriving DecidableEq, Repr

/-- Whitespace split as Python str.split() with no argument does it: runs of
whitespace separate the tokens and empty tokens do not occur. -/
def pySplit (s : String) : List String :=
  ((s.toList.splitOnP (fun c => c.isWhitespace)).filter (fun t => ¬ t = [])).map List.asString

/-- Models Python float() acceptance on the decimal forms relevant here:
an optional sign followed by digits with at most one decimal point and at
least one digit.  Exponents, infinities and NaN spellings are out of scope. -/
def pyFloatOk (s : String) : Bool :=
  let cs := s.toList
  let t := match cs with
    | '+' :: rest => rest
    | '-' :: rest => rest
    | _ => cs
  (¬ t = []) && t.all (fun c => c.isDigit || c = '.') &&
    (t.filter (fun c => c = '.')).length ≤ 1 && t.any (fun c => c.isDigit)

/-- Models parse_viewbox (lines 76-88): a falsy (empty) string or one that
does not split into exactly four tokens yields None; four tokens are
converted with float(), whose ValueError on a malformed token propagates
(modelled as the error branch). -/
def parse_viewbox (viewbox_str : String) : Except String (Option (List String)) :=
  if viewbox_str = "" then .ok none
  else
    let parts := pySplit viewbox_str
    if parts.length = 4 then
      if parts.all pyFloatOk then .ok (some parts) else .error "ValueError"
    else .ok none

/-- The handling of the current viewBox in crop_svg, lines 127-131.  A missing
or empty attribute is skipped; a present attribute is fed to parse_viewbox and
the old viewBox is printed.  When parse_viewbox returns None for a truthy
attribute, the subscript old_vb applied on line 130 raises a TypeError; a
malformed float raises inside parse_viewbox.  A vals attribute is the string
the script itself writes: four space-joined numbers, which always parse. -/
def oldViewboxEvents (vb : Option ViewBoxAttr) : Except String (List Effect) :=
  match vb with
  | none => .ok []
  | some (.vals _ _ _ _) => .ok [.printOldViewBox]
  | some (.raw s) =>
    if s = "" then .ok []
    else
      match parse_viewbox s with
      | .error e => .error e
      | .ok none => .error "TypeError"
      | .ok (some _) => .ok [.printOldViewBox]

/-- Models Path.stem and Path.suffix for ordinary file names such as
icon.svg: the suffix is everything from the last dot on, empty when the
name has no dot. -/
def path_split_ext (name : String) : String × String :=
  let cs := name.toList
  let revSuf := cs.reverse.takeWhile (fun c => ¬ c = '.')
  if revSuf.length + 1 ≤ cs.length then
    ((cs.take (cs.length - (revSuf.length + 1))).asString, ('.' :: revSuf.reverse).asString)
  else (name, "")

/-- The default output name derivation of lines 103-105: stem + _cropped +
suffix, next to the input. -/
def default_output (input_file : String) : String :=
  let se := path_split_ext input_file
  se.1 ++ "_cropped" ++ se.2

/-- The output path crop_svg ends up using (lines 103-105): the explicit one
when given, the derived default otherwise. -/
def resolved_output (input_file : String) (output_file : Option String) : String :=
  match output_file with
  | some o => o
  | none => default_output input_file

/-- Models crop_svg (lines 91-155) as a pure function from the input file's
content to the Python return value and the trace of effects, in source order:
resolve the output name, print Processing, run the bbox calculation (svg2paths
re-reads and parses the file there, so a malformed file raises at that point),
return None with no further effect when no bbox was found, otherwise print the
bbox, parse the XML, handle the old viewBox, compute the padded viewBox,
delete width and height, write the output and return its path.  An error
value models an exception propagating out of crop_svg. -/
def crop_svg (input_file : String) (fd : FileData) (output_file : Option String)
    (padding : ℚ) : Except String (Option String) × List Effect :=
  let out := resolved_output input_file output_file
  match fd with
  | .malformed => (.error "ParseError", [.printProcessing input_file])
  | .doc d =>
    match calculate_bbox_with_svgpathtools d.paths with
    | none => (.ok none, [.printProcessing input_file, .printNoBBoxError input_file])
    | some bbox =>
      match oldViewboxEvents d.viewBox with
      | .error e =>
        (.error e, [.printProcessing input_file, .printCalculatedBBox, .parseXml input_file])
      | .ok oldEvs =>
        let new_x := bbox.xmin - padding
        let new_y := bbox.ymin - padding
        let new_width := bbox.width + 2 * padding
        let new_height := bbox.height + 2 * padding
        let newDoc : SvgDoc :=
          { d with viewBox := some (.vals new_x new_y new_width new_height)
                   width := none
                   height := none }
        (.ok (some out),
          [.printProcessing input_file, .printCalculatedBBox, .parseXml input_file] ++ oldEvs ++
            [.printNewViewBox, .writeFile out newDoc, .printSaved out])

/-- Models the fnmatch pattern *.svg used by Path.glob on line 173: a name
matches exactly when it ends in .svg. -/
def fnmatch_svg (name : String) : Bool :=
  List.isPrefixOf (".svg".toList.reverse) name.toList.reverse

/-- The enumeration of lines 169-175.  A directory input enumerates the
entries of that directory matching *.svg, non-recursively, in the order the
operating system lists them (Path.glob applies no sort); any other input is
expanded by the glob module, whose result order is likewise left to the
filesystem.  The directory listing and the glob expansion are supplied as
data. -/
def enumerate_inputs (is_dir : Bool) (dir_entries glob_matches : List String) : List String :=
  if is_dir then dir_entries.filter fnmatch_svg else glob_matches

/-- The per-file output resolution of lines 191-194: with an output directory
the input's file name is mirrored into it, otherwise crop_svg derives the
default name. -/
def batch_output_file (output_dir : Option String) (name : String) : Option String :=
  match output_dir with
  | some dirname => some (dirname ++ "/" ++ name)
  | none => none

/-- The body of the batch loop, lines 189-199: run crop_svg on the file and
catch any exception it raises, turning it into an error print, after which
the loop continues. -/
def process_one (contents : String → FileData) (output_dir : Option String) (padding : ℚ)
    (name : String) : List Effect :=
  match crop_svg name (contents name) (batch_output_file output_dir name) padding with
  | (.ok _, tr) => tr
  | (.error _, tr) => tr ++ [.printErrorProcessing name]

/-- Models process_batch (lines 158-199): enumerate the inputs, report when
nothing matched, otherwise print the found count, create the output directory
when one was given, and run the guarded per-file body over every enumerated
file in order. -/
def process_batch (is_dir : Bool) (dir_entries glob_matches : List String)
    (contents : String → FileData) (output_dir : Option String) (padding : ℚ) : List Effect :=
  let svg_files := enumerate_inputs is_dir dir_entries glob_matches
  if svg_files.isEmpty then [.printNoFiles]
  else
    [.printFound svg_files.length] ++
      (match output_dir with
        | some dirname => [.mkdirOutput dirname]
        | none => []) ++
      svg_files.flatMap (process_one contents output_dir padding)

/-- Models main (lines 202-234), renamed since Lean reserves the name main,
from the point where the arguments are known:
when svgpathtools is unavailable the process prints the error and exits with
status 1 before touching any file; in batch mode process_batch runs and main
returns normally (exit status 0) whatever happened per file; in single-file
mode crop_svg runs unguarded, so an exception it raises escapes main and the
interpreter terminates with a traceback and exit status 1, while a normal
return (even the None of a failed bbox calculation) exits with 0. -/
def main_run (svgpathtools_available : Bool) (batch : Bool) (input : String)
    (output : Option String) (padding : ℚ) (is_dir : Bool)
    (dir_entries glob_matches : List String) (contents : String → FileData) :
    Nat × List Effect :=
  if svgpathtools_available = false then
    (1, [.printMissingCapability])
  else if batch then
    (0, process_batch is_dir dir_entries glob_matches contents output padding)
  else
    match crop_svg input (contents input) output padding with
    | (.ok _, tr) => (0, tr)
    | (.error _, tr) => (1, tr)

/-- The files a trace claims to have started processing, in order. -/
def processedFiles (tr : List Effect) : List String :=
  tr.filterMap (fun e =>
    match e with
    | .printProcessing f => some f
    | _ => none)

/-- The output writes a trace performs, in order. -/
def writtenDocs (tr : List Effect) : List (String × SvgDoc) :=
  tr.filterMap (fun e =>
    match e with
    | .writeFile p d => some (p, d)
    | _ => none)

/-- Whether an effect is a success_count/total_count style summary report. -/
def isSummaryReport : Effect → Bool
  | .printSummary _ _ => true
  | _ => false

/-- Whether an effect touches a file or directory: beginning to process an
input (svg2paths reads it right after), parsing it as XML, writing or naming
an output, or creating the output directory. -/
def isFileTouch : Effect → Bool
  | .printProcessing _ => true
  | .parseXml _ => true
  | .writeFile _ _ => true
  | .printSaved _ => true
  | .mkdirOutput _ => true
  | _ => false

/-- Replays the writes of a trace onto a name-indexed store of documents,
so that state change is observable: only writeFile effects modify it. -/
def applyEffects (fs : List (String × SvgDoc)) (tr : List Effect) : List (String × SvgDoc) :=
  tr.foldl (fun acc e =>
    match e with
    | .writeFile p d => (p, d) :: acc.filter (fun entry => ¬ entry.1 = p)
    | _ => acc) fs

/-- The BBox Aggregator contract in the words of the spec: coordinate-wise
min of the mins and max of the maxes over the valid per-path boxes,
initialized from the first valid bbox, and no bounding box at all when no
valid box exists.  Stated independently of the source's fold so the two can
be compared. -/
def union_bbox_spec : List PathBox → Option BBox
  | [] => none
  | v :: vs =>
    let xmin := vs.foldl (fun m u => min m u.1) v.1
    let xmax := vs.foldl (fun m u => max m u.2.1) v.2.1
    let ymin := vs.foldl (fun m u => min m u.2.2.1) v.2.2.1
    let ymax := vs.foldl (fun m u => max m u.2.2.2) v.2.2.2
    some { xmin := xmin, ymin := ymin, width := xmax - xmin, height := ymax - ymin,
           xmax := xmax, ymax := ymax }

/-- Modelled from the spec: the centered-square viewBox policy of section 4.3,
carried by the repository's other script variants and absent from
src/svg_crop.py.  Content width and height are padded, the square side is
their maximum, and the square is placed so its center is the bbox center.
Returns (new_x, new_y, new_width, new_height). -/
def centered_square_viewbox (bbox : BBox) (padding : ℚ) : ℚ × ℚ × ℚ × ℚ :=
  let content_w := bbox.width + 2 * padding
  let content_h := bbox.height + 2 * padding
  let square := max content_w content_h
  let center_x := bbox.xmin + bbox.width / 2
  let center_y := bbox.ymin + bbox.height / 2
  (center_x - square / 2, center_y - square / 2, square, square)

/-- The combination step of the aggregation loop on two valid boxes
(lines 52-55 of the source). -/
def bboxCombine (a v : PathBox) : PathBox :=
  (min a.1 v.1, max a.2.1 v.2.1, min a.2.2.1 v.2.2.1, max a.2.2.2 v.2.2.2)

lemma bboxFold_some_some (a v : PathBox) :
    bboxFold (some a) (some v) = some (bboxCombine a v) := rfl

lemma foldl_bboxFold_some (paths : List (Option PathBox)) (a : PathBox) :
    paths.foldl bboxFold (some a) = some ((paths.filterMap id).foldl bboxCombine a) := by
  induction paths generalizing a with
  | nil => rfl
  | cons p ps ih =>
    cases p with
    | none => simpa [bboxFold] using ih a
    | some v => simpa [bboxFold, bboxCombine] using ih (bboxCombine a v)

lemma foldl_bboxFold_none (paths : List (Option PathBox)) :
    paths.foldl bboxFold none =
      match paths.filterMap id with
      | [] => none
      | v :: vs => some (vs.foldl bboxCombine v) := by
  induction paths with
  | nil => rfl
  | cons p ps ih =>
    cases p with
    | none => simpa [bboxFold] using ih
    | some v => simp [bboxFold, foldl_bboxFold_some]

lemma foldl_bboxCombine_1 (vs : List PathBox) (a : PathBox) :
    (vs.foldl bboxCombine a).1 = vs.foldl (fun m u => min m u.1) a.1 := by
  induction vs generalizing a with
  | nil => rfl
  | cons v vs ih => simpa [bboxCombine] using ih (bboxCombine a v)

lemma foldl_bboxCombine_21 (vs : List PathBox) (a : PathBox) :
    (vs.foldl bboxCombine a).2.1 = vs.foldl (fun m u => max m u.2.1) a.2.1 := by
  induction vs generalizing a with
  | nil => rfl
  | cons v vs ih => simpa [bboxCombine] using ih (bboxCombine a v)

lemma foldl_bboxCombine_221 (vs : List PathBox) (a : PathBox) :
    (vs.foldl bboxCombine a).2.2.1 = vs.foldl (fun m u => min m u.2.2.1) a.2.2.1 := by
  induction vs generalizing a with
  | nil => rfl
  | cons v vs ih => simpa [bboxCombine] using ih (bboxCombine a v)

lemma foldl_bboxCombine_222 (vs : List PathBox) (a : PathBox) :
    (vs.foldl bboxCombine a).2.2.2 = vs.foldl (fun m u => max m u.2.2.2) a.2.2.2 := by
  induction vs generalizing a with
  | nil => rfl
  | cons v vs ih => simpa [bboxCombine] using ih (bboxCombine a v)

lemma foldl_min_le_init (f : PathBox → ℚ) (l : List PathBox) (a : ℚ) :
    l.foldl (fun m u => min m (f u)) a ≤ a := by
  induction l generalizing a with
  | nil => simp
  | cons v vs ih => exact le_trans (ih (min a (f v))) (min_le_left _ _)

lemma foldl_min_le_mem (f : PathBox → ℚ) (l : List PathBox) :
    ∀ a v, v ∈ l → l.foldl (fun m u => min m (f u)) a ≤ f v := by
  induction l with
  | nil => intro a v hv; cases hv
  | cons w ws ih =>
    intro a v hv
    rcases List.mem_cons.mp hv with h | h
    · subst h
      exact le_trans (foldl_min_le_init f ws (min a (f v))) (min_le_right _ _)
    · exact ih (min a (f w)) v h

lemma foldl_max_init_le (f : PathBox → ℚ) (l : List PathBox) (a : ℚ) :
    a ≤ l.foldl (fun m u => max m (f u)) a := by
  induction l generalizing a with
  | nil => simp
  | cons v vs ih => exact le_trans (le_max_left _ _) (ih (max a (f v)))

lemma foldl_max_mem_le (f : PathBox → ℚ) (l : List PathBox) :
    ∀ a v, v ∈ l → f v ≤ l.foldl (fun m u => max m (f u)) a := by
  induction l with
  | nil => intro a v hv; cases hv
  | cons w ws ih =>
    intro a v hv
    rcases List.mem_cons.mp hv with h | h
    · subst h
      exact le_trans (le_max_right _ _) (foldl_max_init_le f ws (max a (f v)))
    · exact ih (max a (f w)) v h

lemma calculate_bbox_eq_union_spec (paths : List (Option PathBox)) :
    calculate_bbox_with_svgpathtools paths = union_bbox_spec (paths.filterMap id) := by
  unfold calculate_bbox_with_svgpathtools
  rcases hp : paths with _ | ⟨p, ps⟩
  · rfl
  · rw [← hp]
    have hne : paths.isEmpty = false := by simp [hp]
    rw [hne]
    simp only [Bool.false_eq_true, if_false]
    rw [foldl_bboxFold_none]
    rcases hv : paths.filterMap id with _ | ⟨v, vs⟩
    · rfl
    · simp only [union_bbox_spec]
      rw [foldl_bboxCombine_1, foldl_bboxCombine_21, foldl_bboxCombine_221,
        foldl_bboxCombine_222]

/-- The document crop_svg writes: the input document with the raw-crop
viewBox set (lines 134-140) and width and height removed (lines 146-149). -/
def croppedDoc (d : SvgDoc) (B : BBox) (p : ℚ) : SvgDoc :=
  { d with viewBox := some (.vals (B.xmin - p) (B.ymin - p) (B.width + 2 * p) (B.height + 2 * p))
           width := none
           height := none }

lemma oldViewboxEvents_ok_shape (vb : Option ViewBoxAttr) (evs : List Effect)
    (h : oldViewboxEvents vb = .ok evs) :
    evs = [] ∨ evs = [Effect.printOldViewBox] := by
  cases vb with
  | none => exact Or.inl (Except.ok.inj h).symm
  | some a =>
    cases a with
    | vals x y w h' => exact Or.inr (Except.ok.inj h).symm
    | raw s =>
      by_cases hs : s = ""
      · rw [show oldViewboxEvents (some (.raw s)) = .ok [] by simp [oldViewboxEvents, hs]] at h
        exact Or.inl (Except.ok.inj h).symm
      · simp only [oldViewboxEvents, hs, if_false] at h
        rcases hp : parse_viewbox s with e | o
        · rw [hp] at h
          exact absurd h (by simp)
        · rcases o with _ | parts
          · rw [hp] at h
            exact absurd h (by simp)
          · rw [hp] at h
            exact Or.inr (Except.ok.inj h).symm

lemma crop_svg_malformed (inp : String) (out : Option String) (p : ℚ) :
    crop_svg inp .malformed out p = (.error "ParseError", [.printProcessing inp]) := rfl

lemma crop_svg_no_bbox (inp : String) (d : SvgDoc) (out : Option String) (p : ℚ)
    (h : calculate_bbox_with_svgpathtools d.paths = none) :
    crop_svg inp (.doc d) out p =
      (.ok none, [.printProcessing inp, .printNoBBoxError inp]) := by
  simp [crop_svg, h]

lemma crop_svg_oldvb_error (inp : String) (d : SvgDoc) (out : Option String) (p : ℚ)
    (B : BBox) (e : String)
    (hB : calculate_bbox_with_svgpathtools d.paths = some B)
    (he : oldViewboxEvents d.viewBox = .error e) :
    crop_svg inp (.doc d) out p =
      (.error e, [.printProcessing inp, .printCalculatedBBox, .parseXml inp]) := by
  simp [crop_svg, hB, he]

lemma crop_svg_success (inp : String) (d : SvgDoc) (out : Option String) (p : ℚ)
    (B : BBox) (evs : List Effect)
    (hB : calculate_bbox_with_svgpathtools d.paths = some B)
    (he : oldViewboxEvents d.viewBox = .ok evs) :
    crop_svg inp (.doc d) out p =
      (.ok (some (resolved_output inp out)),
        [.printProcessing inp, .printCalculatedBBox, .parseXml inp] ++ evs ++
          [.printNewViewBox, .writeFile (resolved_output inp out) (croppedDoc d B p),
           .printSaved (resolved_output inp out)]) := by
  simp [crop_svg, hB, he, croppedDoc]

lemma processedFiles_append (a b : List Effect) :
    processedFiles (a ++ b) = processedFiles a ++ processedFiles b := by
  simp [processedFiles]

lemma writtenDocs_append (a b : List Effect) :
    writtenDocs (a ++ b) = writtenDocs a ++ writtenDocs b := by
  simp [writtenDocs]

lemma oldvb_evs_processed (vb : Option ViewBoxAttr) (evs : List Effect)
    (h : oldViewboxEvents vb = .ok evs) : processedFiles evs = [] := by
  rcases oldViewboxEvents_ok_shape vb evs h with h' | h' <;> subst h' <;> rfl

lemma oldvb_evs_written (vb : Option ViewBoxAttr) (evs : List Effect)
    (h : oldViewboxEvents vb = .ok evs) : writtenDocs evs = [] := by
  rcases oldViewboxEvents_ok_shape vb evs h with h' | h' <;> subst h' <;> rfl

lemma oldvb_evs_no_summary (vb : Option ViewBoxAttr) (evs : List Effect)
    (h : oldViewboxEvents vb = .ok evs) :
    ∀ x ∈ evs, isSummaryReport x = false := by
  rcases oldViewboxEvents_ok_shape vb evs h with h' | h' <;> subst h' <;>
    simp [isSummaryReport]

lemma crop_svg_processed (inp : String) (fd : FileData) (out : Option String) (p : ℚ) :
    processedFiles (crop_svg inp fd out p).2 = [inp] := by
  rcases fd with _ | d
  · rfl
  · rcases hB : calculate_bbox_with_svgpathtools d.paths with _ | B
    · rw [crop_svg_no_bbox inp d out p hB]
      rfl
    · rcases he : oldViewboxEvents d.viewBox with e | evs
      · rw [crop_svg_oldvb_error inp d out p B e hB he]
        rfl
      · rw [crop_svg_success inp d out p B evs hB he]
        simp only [processedFiles_append, oldvb_evs_processed d.viewBox evs he]
        rfl

lemma crop_svg_no_summary (inp : String) (fd : FileData) (out : Option String) (p : ℚ) :
    ∀ x ∈ (crop_svg inp fd out p).2, isSummaryReport x = false := by
  rcases fd with _ | d
  · intro x hx
    rw [crop_svg_malformed] at hx
    simp at hx
    subst hx
    rfl
  · rcases hB : calculate_bbox_with_svgpathtools d.paths with _ | B
    · rw [crop_svg_no_bbox inp d out p hB]
      intro x hx
      simp at hx
      rcases hx with hx | hx <;> subst hx <;> rfl
    · rcases he : oldViewboxEvents d.viewBox with e | evs
      · rw [crop_svg_oldvb_error inp d out p B e hB he]
        intro x hx
        simp at hx
        rcases hx with hx | hx | hx <;> subst hx <;> rfl
      · rw [crop_svg_success inp d out p B evs hB he]
        intro x hx
        simp only [List.mem_append, List.mem_cons, List.not_mem_nil, or_false] at hx
        rcases hx with ((hx | hx | hx) | hx) | (hx | hx | hx)
        · subst hx; rfl
        · subst hx; rfl
        · subst hx; rfl
        · exact oldvb_evs_no_summary d.viewBox evs he x hx
        · subst hx; rfl
        · subst hx; rfl
        · subst hx; rfl

lemma crop_svg_written_success (inp : String) (d : SvgDoc) (out : Option String) (p : ℚ)
    (B : BBox) (evs : List Effect)
    (hB : calculate_bbox_with_svgpathtools d.paths = some B)
    (he : oldViewboxEvents d.viewBox = .ok evs) :
    writtenDocs (crop_svg inp (.doc d) out p).2 =
      [(resolved_output inp out, croppedDoc d B p)] := by
  rw [crop_svg_success inp d out p B evs hB he]
  simp only [writtenDocs_append, oldvb_evs_written d.viewBox evs he]
  rfl

lemma crop_svg_ok_some_inv (inp : String) (fd : FileData) (out : Option String) (p : ℚ)
    (o : String) (tr : List Effect)
    (h : crop_svg inp fd out p = (.ok (some o), tr)) :
    ∃ d B evs, fd = .doc d ∧
      calculate_bbox_with_svgpathtools d.paths = some B ∧
      oldViewboxEvents d.viewBox = .ok evs ∧
      o = resolved_output inp out ∧
      tr = [.printProcessing inp, .printCalculatedBBox, .parseXml inp] ++ evs ++
        [.printNewViewBox, .writeFile (resolved_output inp out) (croppedDoc d B p),
         .printSaved (resolved_output inp out)] := by
  rcases fd with _ | d
  · rw [crop_svg_malformed] at h
    simp at h
  · rcases hB : calculate_bbox_with_svgpathtools d.paths with _ | B
    · rw [crop_svg_no_bbox inp d out p hB] at h
      simp at h
    · rcases he : oldViewboxEvents d.viewBox with e | evs
      · rw [crop_svg_oldvb_error inp d out p B e hB he] at h
        simp at h
      · rw [crop_svg_success inp d out p B evs hB he] at h
        simp only [Prod.mk.injEq] at h
        obtain ⟨ho, htr⟩ := h
        simp only [Except.ok.injEq, Option.some.injEq] at ho
        exact ⟨d, B, evs, rfl, hB, he, ho.symm, htr.symm⟩

lemma crop_svg_processed_eq (inp : String) (fd : FileData) (out : Option String) (p : ℚ)
    (res : Except String (Option String)) (tr : List Effect)
    (h : crop_svg inp fd out p = (res, tr)) : processedFiles tr = [inp] := by
  have hp := crop_svg_processed inp fd out p
  rw [h] at hp
  exact hp

lemma crop_svg_no_summary_eq (inp : String) (fd : FileData) (out : Option String) (p : ℚ)
    (res : Except String (Option String)) (tr : List Effect)
    (h : crop_svg inp fd out p = (res, tr)) :
    ∀ x ∈ tr, isSummaryReport x = false := by
  have hp := crop_svg_no_summary inp fd out p
  rw [h] at hp
  exact hp

lemma process_one_error_shape (contents : String → FileData) (output_dir : Option String)
    (padding : ℚ) (name : String) (e : String) (tr1 : List Effect)
    (h : crop_svg name (contents name) (batch_output_file output_dir name) padding =
      (.error e, tr1)) :
    process_one contents output_dir padding name = tr1 ++ [.printErrorProcessing name] := by
  unfold process_one
  rw [h]

lemma process_one_ok_shape (contents : String → FileData) (output_dir : Option String)
    (padding : ℚ) (name : String) (o : Option String) (tr1 : List Effect)
    (h : crop_svg name (contents name) (batch_output_file output_dir name) padding =
      (.ok o, tr1)) :
    process_one contents output_dir padding name = tr1 := by
  unfold process_one
  rw [h]

lemma process_one_processed (contents : String → FileData) (output_dir : Option String)
    (padding : ℚ) (name : String) :
    processedFiles (process_one contents output_dir padding name) = [name] := by
  rcases h : crop_svg name (contents name) (batch_output_file output_dir name) padding
    with ⟨res, tr⟩
  rcases res with e | o
  · rw [process_one_error_shape contents output_dir padding name e tr h,
      processedFiles_append, crop_svg_processed_eq name _ _ _ _ _ h]
    rfl
  · rw [process_one_ok_shape contents output_dir padding name o tr h]
    exact crop_svg_processed_eq name _ _ _ _ _ h

lemma process_one_no_summary (contents : String → FileData) (output_dir : Option String)
    (padding : ℚ) (name : String) :
    ∀ x ∈ process_one contents output_dir padding name, isSummaryReport x = false := by
  rcases h : crop_svg name (contents name) (batch_output_file output_dir name) padding
    with ⟨res, tr⟩
  rcases res with e | o
  · rw [process_one_error_shape contents output_dir padding name e tr h]
    intro x hx
    rcases List.mem_append.mp hx with hx | hx
    · exact crop_svg_no_summary_eq name _ _ _ _ _ h x hx
    · simp at hx
      subst hx
      rfl
  · rw [process_one_ok_shape contents output_dir padding name o tr h]
    exact crop_svg_no_summary_eq name _ _ _ _ _ h

lemma processedFiles_flatMap (l : List String) (f : String → List Effect)
    (hf : ∀ n ∈ l, processedFiles (f n) = [n]) :
    processedFiles (l.flatMap f) = l := by
  induction l with
  | nil => rfl
  | cons a as ih =>
    rw [List.flatMap_cons, processedFiles_append, hf a (List.mem_cons_self a as),
      ih (fun n hn => hf n (List.mem_cons_of_mem a hn))]
    rfl

lemma process_batch_nonempty_shape (is_dir : Bool) (dir_entries glob_matches : List String)
    (contents : String → FileData) (output_dir : Option String) (padding : ℚ)
    (hne : enumerate_inputs is_dir dir_entries glob_matches ≠ []) :
    process_batch is_dir dir_entries glob_matches contents output_dir padding =
      [.printFound (enumerate_inputs is_dir dir_entries glob_matches).length] ++
        (match output_dir with
          | some dirname => [.mkdirOutput dirname]
          | none => []) ++
        (enumerate_inputs is_dir dir_entries glob_matches).flatMap
          (process_one contents output_dir padding) := by
  have h : (enumerate_inputs is_dir dir_entries glob_matches).isEmpty = false := by
    simpa [List.isEmpty_iff] using hne
  simp only [process_batch, h]
  rfl

lemma process_batch_processed (is_dir : Bool) (dir_entries glob_matches : List String)
    (contents : String → FileData) (output_dir : Option String) (padding : ℚ)
    (hne : enumerate_inputs is_dir dir_entries glob_matches ≠ []) :
    processedFiles (process_batch is_dir dir_entries glob_matches contents output_dir padding) =
      enumerate_inputs is_dir dir_entries glob_matches := by
  rw [process_batch_nonempty_shape is_dir dir_entries glob_matches contents output_dir padding hne,
    processedFiles_append, processedFiles_append,
    processedFiles_flatMap _ _ (fun n _ => process_one_processed contents output_dir padding n)]
  rcases output_dir with _ | dirname <;> rfl

lemma process_batch_no_summary (is_dir : Bool) (dir_entries glob_matches : List String)
    (contents : String → FileData) (output_dir : Option String) (padding : ℚ) :
    ∀ x ∈ process_batch is_dir dir_entries glob_matches contents output_dir padding,
      isSummaryReport x = false := by
  by_cases hne : enumerate_inputs is_dir dir_entries glob_matches = []
  · have h : (enumerate_inputs is_dir dir_entries glob_matches).isEmpty = true := by
      simp [List.isEmpty_iff, hne]
    simp only [process_batch, h]
    intro x hx
    simp at hx
    subst hx
    rfl
  · rw [process_batch_nonempty_shape is_dir dir_entries glob_matches contents output_dir padding hne]
    intro x hx
    rcases List.mem_append.mp hx with hx | hx
    · rcases List.mem_append.mp hx with hx | hx
      · simp at hx
        subst hx
        rfl
      · rcases output_dir with _ | dirname
        · simp at hx
        · simp at hx
          subst hx
          rfl
    · rcases List.mem_flatMap.mp hx with ⟨n, hn, hxn⟩
      exact process_one_no_summary contents output_dir padding n x hxn

/-- Rendering of one number into the output attribute, standing for the
natural float-to-string conversion Python applies in the f-string of
line 139 (no fixed decimal formatting). -/
def render_num (q : ℚ) : String := toString q

/-- The string form of a viewBox attribute value: a raw input attribute is
itself; an attribute the script wrote is the four numbers space-joined
(line 139 of the source). -/
def viewbox_string : ViewBoxAttr → String
  | .raw s => s
  | .vals x y w h => render_num x ++ " " ++ render_num y ++ " " ++ render_num w ++ " " ++
      render_num h

/-- C2: for every sequence of per-path bounding boxes, with failed paths
skipped, the aggregator returns the union bounding box of the valid boxes —
coordinate-wise min of the xmins and ymins and max of the xmaxs and ymaxs,
initialized from the first valid bbox — and returns no bounding box exactly
when the sequence is empty or every path failed.  In addition, every valid
per-path box is contained in the returned bounding box. -/
theorem aggregator_union_bbox (paths : List (Option PathBox)) :
    calculate_bbox_with_svgpathtools paths = union_bbox_spec (paths.filterMap id) ∧
    (calculate_bbox_with_svgpathtools paths = none ↔ paths.filterMap id = []) ∧
    ∀ b, calculate_bbox_with_svgpathtools paths = some b →
      ∀ v, v ∈ paths.filterMap id →
        b.xmin ≤ v.1 ∧ v.2.1 ≤ b.xmax ∧ b.ymin ≤ v.2.2.1 ∧ v.2.2.2 ≤ b.ymax := by
  refine ⟨calculate_bbox_eq_union_spec paths, ?_, ?_⟩
  · rw [calculate_bbox_eq_union_spec]
    rcases hv : paths.filterMap id with _ | ⟨v, vs⟩
    · simp [union_bbox_spec]
    · simp [union_bbox_spec]
  · intro b hb v hv
    rw [calculate_bbox_eq_union_spec] at hb
    rcases hval : paths.filterMap id with _ | ⟨w, ws⟩
    · rw [hval] at hb
      simp [union_bbox_spec] at hb
    · rw [hval] at hb
      simp only [union_bbox_spec, Option.some.injEq] at hb
      subst hb
      rw [hval] at hv
      rcases List.mem_cons.mp hv with h | h
      · subst h
        exact ⟨foldl_min_le_init _ ws _, foldl_max_init_le _ ws _,
          foldl_min_le_init _ ws _, foldl_max_init_le _ ws _⟩
      · exact ⟨foldl_min_le_mem _ ws _ v h, foldl_max_mem_le _ ws _ v h,
          foldl_min_le_mem _ ws _ v h, foldl_max_mem_le _ ws _ v h⟩

/-- Example aggregator input: three paths, the middle one failing. -/
def pathsEx : List (Option PathBox) := [some (3, 5, 1, 2), none, some (0, 4, -2, 7)]

/-- The union bounding box of the two valid boxes of pathsEx. -/
def bboxEx : BBox :=
  { xmin := 0, ymin := -2, width := 5, height := 9, xmax := 5, ymax := 7 }

/-- Witness for aggregator_union_bbox at a concrete input. -/
theorem aggregator_union_bbox_witness :
    calculate_bbox_with_svgpathtools pathsEx = union_bbox_spec (pathsEx.filterMap id) ∧
    (BBox.xmin bboxEx ≤ 3 ∧ 5 ≤ BBox.xmax bboxEx ∧ BBox.ymin bboxEx ≤ 1 ∧
      2 ≤ BBox.ymax bboxEx) :=
  ⟨(aggregator_union_bbox pathsEx).1,
    (aggregator_union_bbox pathsEx).2.2 bboxEx
      (by simp only [pathsEx, calculate_bbox_with_svgpathtools, bboxFold, List.foldl,
            List.isEmpty_cons, Bool.false_eq_true, if_false, bboxEx]
          norm_num)
      (3, 5, 1, 2) (by simp [pathsEx])⟩

/-- C3: the centered-square viewBox policy always yields a square whose side
is the larger padded content extent and whose center is the content bounding
box's center, for every bounding box and padding. -/
theorem centered_square_policy (B : BBox) (p : ℚ) :
    (centered_square_viewbox B p).2.2.1 = (centered_square_viewbox B p).2.2.2 ∧
    (centered_square_viewbox B p).2.2.1 = max (B.width + 2 * p) (B.height + 2 * p) ∧
    (centered_square_viewbox B p).1 + (centered_square_viewbox B p).2.2.1 / 2 =
      B.xmin + B.width / 2 ∧
    (centered_square_viewbox B p).2.1 + (centered_square_viewbox B p).2.2.2 / 2 =
      B.ymin + B.height / 2 := by
  refine ⟨rfl, rfl, ?_, ?_⟩ <;>
    simp only [centered_square_viewbox] <;> ring

/-- C10: when the bbox calculation finds no bounding box, crop_svg returns
None right away: nothing is written, the input is never parsed as XML, and
replaying the trace on any document store leaves it unchanged. -/
theorem no_bbox_no_write (inp : String) (d : SvgDoc) (out : Option String) (p : ℚ)
    (h : calculate_bbox_with_svgpathtools d.paths = none) :
    crop_svg inp (.doc d) out p =
      (.ok none, [.printProcessing inp, .printNoBBoxError inp]) ∧
    writtenDocs (crop_svg inp (.doc d) out p).2 = [] ∧
    (∀ f, Effect.parseXml f ∉ (crop_svg inp (.doc d) out p).2) ∧
    ∀ fs, applyEffects fs (crop_svg inp (.doc d) out p).2 = fs := by
  have hc := crop_svg_no_bbox inp d out p h
  refine ⟨hc, ?_, ?_, ?_⟩
  · rw [hc]
    rfl
  · intro f
    rw [hc]
    simp
  · intro fs
    rw [hc]
    rfl

/-- An example document with a single path whose bbox computation failed. -/
def failedPathDoc : SvgDoc :=
  { paths := [none], viewBox := some (.raw "0 0 100 100"), width := some "100",
    height := some "100" }

/-- Witness for no_bbox_no_write at a concrete input. -/
theorem no_bbox_no_write_witness :
    crop_svg "empty.svg" (.doc failedPathDoc) none 0 =
      (.ok none, [.printProcessing "empty.svg", .printNoBBoxError "empty.svg"]) ∧
    writtenDocs (crop_svg "empty.svg" (.doc failedPathDoc) none 0).2 = [] ∧
    (Effect.parseXml "empty.svg" ∉ (crop_svg "empty.svg" (.doc failedPathDoc) none 0).2) ∧
    applyEffects [("kept.svg", failedPathDoc)] (crop_svg "empty.svg" (.doc failedPathDoc) none 0).2 =
      [("kept.svg", failedPathDoc)] := by
  have h := no_bbox_no_write "empty.svg" failedPathDoc none 0 (by rfl)
  exact ⟨h.1, h.2.1, h.2.2.1 "empty.svg", h.2.2.2 [("kept.svg", failedPathDoc)]⟩

/-- C1: for every bounding box B (with xmin ≤ xmax and ymin ≤ ymax) computed
for a document and every padding p, the document crop_svg writes carries the
raw-crop viewBox (B.xmin - p, B.ymin - p, B.width + 2p, B.height + 2p); with
p = 0 it is exactly (B.xmin, B.ymin, B.width, B.height). -/
theorem crop_svg_raw_crop_viewbox (inp : String) (d : SvgDoc) (out : Option String) (p : ℚ)
    (B : BBox) (hx : B.xmin ≤ B.xmax) (hy : B.ymin ≤ B.ymax)
    (hB : calculate_bbox_with_svgpathtools d.paths = some B)
    (res : Except String (Option String)) (tr : List Effect)
    (hres : crop_svg inp (.doc d) out p = (res, tr))
    (path : String) (doc : SvgDoc) (hw : Effect.writeFile path doc ∈ tr) :
    doc.viewBox = some (.vals (B.xmin - p) (B.ymin - p) (B.width + 2 * p) (B.height + 2 * p)) ∧
    (p = 0 → doc.viewBox = some (.vals B.xmin B.ymin B.width B.height)) := by
  rcases he : oldViewboxEvents d.viewBox with e | evs
  · rw [crop_svg_oldvb_error inp d out p B e hB he] at hres
    injection hres with h1 h2
    subst h2
    simp at hw
  · rw [crop_svg_success inp d out p B evs hB he] at hres
    injection hres with h1 h2
    subst h2
    rcases oldViewboxEvents_ok_shape _ _ he with h' | h' <;> subst h' <;> simp at hw <;>
      obtain ⟨hpath, hdoc⟩ := hw <;> subst hdoc <;>
      exact ⟨rfl, fun hp => by subst hp; simp [croppedDoc]⟩

/-- A single-path rectangle document: one path tracing the rectangle from
(20, 20) to (80, 60), no viewBox, fixed width and height attributes. -/
def rectDoc : SvgDoc :=
  { paths := [some (20, 80, 20, 60)], viewBox := none, width := some "24",
    height := some "24" }

/-- The bounding box the aggregator computes for rectDoc. -/
def rectBBox : BBox :=
  { xmin := 20, ymin := 20, width := 60, height := 40, xmax := 80, ymax := 60 }

/-- The document crop_svg writes for rectDoc at padding 0, with the numeric
expressions exactly as the script computes them. -/
def rectCropped : SvgDoc :=
  { paths := [some (20, 80, 20, 60)],
    viewBox := some (.vals (20 - 0) (20 - 0) ((80 - 20) + 2 * 0) ((60 - 20) + 2 * 0)),
    width := none, height := none }

/-- The trace of the successful run of crop_svg on rectDoc. -/
def rectTrace : List Effect :=
  [.printProcessing "icon.svg", .printCalculatedBBox, .parseXml "icon.svg",
   .printNewViewBox, .writeFile "out.svg" rectCropped, .printSaved "out.svg"]

/-- Witness for crop_svg_raw_crop_viewbox at a concrete input. -/
theorem crop_svg_raw_crop_viewbox_witness :
    SvgDoc.viewBox rectCropped =
      some (ViewBoxAttr.vals (BBox.xmin rectBBox - 0) (BBox.ymin rectBBox - 0)
        (BBox.width rectBBox + 2 * 0) (BBox.height rectBBox + 2 * 0)) ∧
    ((0 : ℚ) = 0 →
      SvgDoc.viewBox rectCropped =
        some (ViewBoxAttr.vals (BBox.xmin rectBBox) (BBox.ymin rectBBox)
          (BBox.width rectBBox) (BBox.height rectBBox))) :=
  crop_svg_raw_crop_viewbox "icon.svg" rectDoc (some "out.svg") 0 rectBBox
    (by norm_num [rectBBox]) (by norm_num [rectBBox])
    (by simp only [rectDoc, calculate_bbox_with_svgpathtools, bboxFold, List.foldl,
          List.isEmpty_cons, Bool.false_eq_true, if_false, rectBBox]
        norm_num)
    (.ok (some "out.svg")) rectTrace rfl "out.svg" rectCropped (by simp [rectTrace])

/-- C7: every successfully produced output document has no width attribute
and no height attribute, whatever the input carried, and its viewBox is the
four computed values, whose attribute string is their natural renderings
space-joined. -/
theorem output_has_no_width_height (inp : String) (fd : FileData) (out : Option String)
    (p : ℚ) (o : String) (tr : List Effect) (d : SvgDoc) (B : BBox)
    (hd : fd = FileData.doc d)
    (hB : calculate_bbox_with_svgpathtools d.paths = some B)
    (hres : crop_svg inp fd out p = (.ok (some o), tr))
    (path : String) (doc : SvgDoc) (hw : (path, doc) ∈ writtenDocs tr) :
    doc.width = none ∧ doc.height = none ∧ path = o ∧
    doc.viewBox = some (.vals (B.xmin - p) (B.ymin - p) (B.width + 2 * p) (B.height + 2 * p)) ∧
    viewbox_string (ViewBoxAttr.vals (B.xmin - p) (B.ymin - p) (B.width + 2 * p)
        (B.height + 2 * p)) =
      render_num (B.xmin - p) ++ " " ++ render_num (B.ymin - p) ++ " " ++
        render_num (B.width + 2 * p) ++ " " ++ render_num (B.height + 2 * p) := by
  subst hd
  obtain ⟨d', B', evs, hdd, hB', he, ho, htr⟩ :=
    crop_svg_ok_some_inv inp (.doc d) out p o tr hres
  injection hdd with hdd'
  subst hdd'
  rw [hB] at hB'
  injection hB' with hBB
  subst hBB
  subst htr
  rw [writtenDocs_append, writtenDocs_append, oldvb_evs_written _ _ he] at hw
  simp [writtenDocs] at hw
  obtain ⟨hpath, hdoc⟩ := hw
  subst hdoc
  subst ho
  exact ⟨rfl, rfl, hpath, rfl, rfl⟩

/-- Witness for output_has_no_width_height at a concrete input. -/
theorem output_has_no_width_height_witness :
    SvgDoc.width rectCropped = none ∧ SvgDoc.height rectCropped = none ∧
    "out.svg" = "out.svg" ∧
    SvgDoc.viewBox rectCropped =
      some (ViewBoxAttr.vals (BBox.xmin rectBBox - 0) (BBox.ymin rectBBox - 0)
        (BBox.width rectBBox + 2 * 0) (BBox.height rectBBox + 2 * 0)) ∧
    viewbox_string (ViewBoxAttr.vals (BBox.xmin rectBBox - 0) (BBox.ymin rectBBox - 0)
        (BBox.width rectBBox + 2 * 0) (BBox.height rectBBox + 2 * 0)) =
      render_num (BBox.xmin rectBBox - 0) ++ " " ++ render_num (BBox.ymin rectBBox - 0) ++
        " " ++ render_num (BBox.width rectBBox + 2 * 0) ++ " " ++
        render_num (BBox.height rectBBox + 2 * 0) :=
  output_has_no_width_height "icon.svg" (.doc rectDoc) (some "out.svg") 0 "out.svg"
    rectTrace rectDoc rectBBox rfl
    (by simp only [rectDoc, calculate_bbox_with_svgpathtools, bboxFold, List.foldl,
          List.isEmpty_cons, Bool.false_eq_true, if_false, rectBBox]
        norm_num)
    rfl "out.svg" rectCropped (by simp [rectTrace, writtenDocs])

/-- C9: raw-crop with padding 0 is idempotent: a second crop_svg run on the
document a successful first run wrote (its geometry unchanged by the viewBox
rewrite) succeeds and writes the same viewBox again. -/
theorem raw_crop_idempotent (inp1 inp2 : String) (d : SvgDoc) (out1 out2 : Option String)
    (o1 : String) (tr1 : List Effect)
    (h1 : crop_svg inp1 (.doc d) out1 0 = (.ok (some o1), tr1))
    (p1 : String) (doc1 : SvgDoc) (hw1 : (p1, doc1) ∈ writtenDocs tr1) :
    (crop_svg inp2 (.doc doc1) out2 0).1 = .ok (some (resolved_output inp2 out2)) ∧
    (writtenDocs (crop_svg inp2 (.doc doc1) out2 0).2).map (fun pd => pd.2.viewBox) =
      [doc1.viewBox] := by
  obtain ⟨d', B, evs, hdd, hB, he, ho, htr⟩ :=
    crop_svg_ok_some_inv inp1 (.doc d) out1 0 o1 tr1 h1
  injection hdd with hdd'
  subst hdd'
  subst htr
  rw [writtenDocs_append, writtenDocs_append, oldvb_evs_written _ _ he] at hw1
  simp [writtenDocs] at hw1
  obtain ⟨hp1, hdoc1⟩ := hw1
  subst hdoc1
  have hB2 : calculate_bbox_with_svgpathtools (croppedDoc d B 0).paths = some B := hB
  have he2 : oldViewboxEvents (croppedDoc d B 0).viewBox = .ok [Effect.printOldViewBox] := rfl
  constructor
  · rw [crop_svg_success inp2 (croppedDoc d B 0) out2 0 B [Effect.printOldViewBox] hB2 he2]
  · rw [crop_svg_written_success inp2 (croppedDoc d B 0) out2 0 B [Effect.printOldViewBox] hB2 he2]
    rfl

/-- Witness for raw_crop_idempotent at a concrete input. -/
theorem raw_crop_idempotent_witness :
    (crop_svg "two.svg" (.doc rectCropped) (some "out2.svg") 0).1 = .ok (some "out2.svg") ∧
    (writtenDocs (crop_svg "two.svg" (.doc rectCropped) (some "out2.svg") 0).2).map
        (fun pd => pd.2.viewBox) =
      [SvgDoc.viewBox rectCropped] :=
  raw_crop_idempotent "icon.svg" "two.svg" rectDoc (some "out.svg") (some "out2.svg")
    "out.svg" rectTrace rfl "out.svg" rectCropped (by simp [rectTrace, writtenDocs])

/-- Example batch contents: b.svg is unparsable, every other name holds the
rectangle document. -/
def exampleBatchContents : String → FileData :=
  fun name => if name = "b.svg" then .malformed else .doc rectDoc

/-- Contents under which every file is unparsable. -/
def malformedContents : String → FileData := fun _ => .malformed

/-- C4 (amended): the batch driver reports the total count once up front
(Found N SVG files) and processes every enumerated file, continuing past
per-file failures; it maintains no success counter and never emits a
success_count/total_count report. -/
theorem batch_reports_found_and_processes_all (is_dir : Bool)
    (dir_entries glob_matches : List String) (contents : String → FileData)
    (output_dir : Option String) (padding : ℚ)
    (hne : enumerate_inputs is_dir dir_entries glob_matches ≠ []) :
    (process_batch is_dir dir_entries glob_matches contents output_dir padding).head? =
      some (.printFound (enumerate_inputs is_dir dir_entries glob_matches).length) ∧
    processedFiles (process_batch is_dir dir_entries glob_matches contents output_dir padding) =
      enumerate_inputs is_dir dir_entries glob_matches ∧
    ∀ x ∈ process_batch is_dir dir_entries glob_matches contents output_dir padding,
      isSummaryReport x = false := by
  refine ⟨?_, process_batch_processed _ _ _ _ _ _ hne,
    process_batch_no_summary _ _ _ _ _ _⟩
  rw [process_batch_nonempty_shape _ _ _ _ _ _ hne]
  rcases output_dir with _ | dirname <;> rfl

/-- Witness for batch_reports_found_and_processes_all at a concrete input. -/
theorem batch_reports_found_and_processes_all_witness :
    (process_batch true ["a.svg", "b.svg", "c.svg"] [] exampleBatchContents none 0).head? =
      some (.printFound (enumerate_inputs true ["a.svg", "b.svg", "c.svg"] []).length) ∧
    processedFiles
        (process_batch true ["a.svg", "b.svg", "c.svg"] [] exampleBatchContents none 0) =
      enumerate_inputs true ["a.svg", "b.svg", "c.svg"] [] :=
  ⟨(batch_reports_found_and_processes_all true ["a.svg", "b.svg", "c.svg"] []
      exampleBatchContents none 0 (by decide)).1,
   (batch_reports_found_and_processes_all true ["a.svg", "b.svg", "c.svg"] []
      exampleBatchContents none 0 (by decide)).2.1⟩

/-- C4 counterexample: in a concrete batch over three enumerated files with
exactly one unparsable, the whole driver trace contains no
success_count/total_count report at all, so in particular no 2/3 summary is
reported at the end. -/
theorem batch_no_success_summary_counterexample :
    (process_batch true ["a.svg", "b.svg", "c.svg"] [] exampleBatchContents none 0).all
      (fun e => !(isSummaryReport e)) = true ∧
    (process_batch true ["a.svg", "b.svg", "c.svg"] [] exampleBatchContents none 0).getLast? ≠
      some (.printSummary 2 3) := by
  exact ⟨rfl, by decide⟩

/-- C5 (amended): directory enumeration yields exactly the *.svg entries of
the directory, non-recursively, as an order-preserving sublist of the
directory listing — the operating system's order, which the code does not
sort — and the batch processes exactly these files in this order. -/
theorem dir_enumeration_filter_order (dir_entries glob_matches : List String)
    (contents : String → FileData) (output_dir : Option String) (padding : ℚ) :
    (enumerate_inputs true dir_entries glob_matches).Sublist dir_entries ∧
    (∀ n ∈ enumerate_inputs true dir_entries glob_matches, fnmatch_svg n = true) ∧
    (∀ n ∈ dir_entries, fnmatch_svg n = true →
      n ∈ enumerate_inputs true dir_entries glob_matches) ∧
    (enumerate_inputs true dir_entries glob_matches ≠ [] →
      processedFiles (process_batch true dir_entries glob_matches contents output_dir padding) =
        enumerate_inputs true dir_entries glob_matches) := by
  refine ⟨?_, ?_, ?_, fun hne => process_batch_processed _ _ _ _ _ _ hne⟩
  · simpa [enumerate_inputs] using List.filter_sublist dir_entries
  · intro n hn
    simp only [enumerate_inputs, if_true, List.mem_filter] at hn
    exact hn.2
  · intro n hn hsvg
    simp only [enumerate_inputs, if_true, List.mem_filter]
    exact ⟨hn, hsvg⟩

/-- Witness for dir_enumeration_filter_order at a concrete input. -/
theorem dir_enumeration_filter_order_witness :
    (enumerate_inputs true ["b.svg", "a.svg", "note.txt"] []).Sublist
      ["b.svg", "a.svg", "note.txt"] ∧
    "a.svg" ∈ enumerate_inputs true ["b.svg", "a.svg", "note.txt"] [] ∧
    processedFiles (process_batch true ["b.svg", "a.svg", "note.txt"] []
        exampleBatchContents none 0) =
      enumerate_inputs true ["b.svg", "a.svg", "note.txt"] [] :=
  ⟨(dir_enumeration_filter_order ["b.svg", "a.svg", "note.txt"] [] exampleBatchContents
      none 0).1,
   (dir_enumeration_filter_order ["b.svg", "a.svg", "note.txt"] [] exampleBatchContents
      none 0).2.2.1 "a.svg" (by decide) (by decide),
   (dir_enumeration_filter_order ["b.svg", "a.svg", "note.txt"] [] exampleBatchContents
      none 0).2.2.2 (by decide)⟩

/-- C5 counterexample: a directory the operating system lists as b.svg
before a.svg is enumerated and processed in exactly that order, although the
sorted order would put a.svg first. -/
theorem dir_enumeration_unsorted_counterexample :
    enumerate_inputs true ["b.svg", "a.svg"] [] = ["b.svg", "a.svg"] ∧
    processedFiles (process_batch true ["b.svg", "a.svg"] [] exampleBatchContents none 0) =
      ["b.svg", "a.svg"] ∧
    "a.svg".toList < "b.svg".toList := by
  exact ⟨rfl, rfl, by decide⟩

/-- C6: in batch mode every per-file failure raised by a file's pipeline is
caught at the driver boundary and reported as an error print for that file,
and the batch still processes every enumerated file: no per-file failure
aborts the batch or escapes. -/
theorem batch_catches_per_file_failures (is_dir : Bool)
    (dir_entries glob_matches : List String) (contents : String → FileData)
    (output_dir : Option String) (padding : ℚ) (name : String) (e : String)
    (tr1 : List Effect)
    (hmem : name ∈ enumerate_inputs is_dir dir_entries glob_matches)
    (hfail : crop_svg name (contents name) (batch_output_file output_dir name) padding =
      (.error e, tr1)) :
    Effect.printErrorProcessing name ∈
      process_batch is_dir dir_entries glob_matches contents output_dir padding ∧
    processedFiles (process_batch is_dir dir_entries glob_matches contents output_dir padding) =
      enumerate_inputs is_dir dir_entries glob_matches := by
  have hne : enumerate_inputs is_dir dir_entries glob_matches ≠ [] :=
    List.ne_nil_of_mem hmem
  refine ⟨?_, process_batch_processed _ _ _ _ _ _ hne⟩
  rw [process_batch_nonempty_shape _ _ _ _ _ _ hne]
  apply List.mem_append.mpr
  right
  exact List.mem_flatMap.mpr ⟨name, hmem,
    by rw [process_one_error_shape contents output_dir padding name e tr1 hfail]; simp⟩

/-- Witness for batch_catches_per_file_failures at a concrete input. -/
theorem batch_catches_per_file_failures_witness :
    Effect.printErrorProcessing "b.svg" ∈
      process_batch true ["a.svg", "b.svg"] [] exampleBatchContents none 0 ∧
    processedFiles (process_batch true ["a.svg", "b.svg"] [] exampleBatchContents none 0) =
      enumerate_inputs true ["a.svg", "b.svg"] [] :=
  batch_catches_per_file_failures true ["a.svg", "b.svg"] [] exampleBatchContents none 0
    "b.svg" "ParseError" [Effect.printProcessing "b.svg"] (by decide) rfl

/-- C8 (amended): the process exits with code 1, touching no file, when
svgpathtools is unavailable at startup; with it available, batch mode always
exits 0 no matter what happened per file, and single-file mode exits 0
whenever crop_svg returns normally (even returning None for a failed bbox
calculation), but an exception escaping crop_svg — e.g. a parse failure —
terminates the interpreter with exit code 1. -/
theorem main_exit_code_behavior (batch : Bool) (input : String) (output : Option String)
    (padding : ℚ) (is_dir : Bool) (dir_entries glob_matches : List String)
    (contents : String → FileData) :
    (main_run false batch input output padding is_dir dir_entries glob_matches contents =
      (1, [Effect.printMissingCapability])) ∧
    ((main_run false batch input output padding is_dir dir_entries glob_matches contents).2.all
      (fun e => !(isFileTouch e)) = true) ∧
    ((main_run true true input output padding is_dir dir_entries glob_matches contents).1 = 0) ∧
    (∀ r tr, crop_svg input (contents input) output padding = (.ok r, tr) →
      main_run true false input output padding is_dir dir_entries glob_matches contents =
        (0, tr)) ∧
    (∀ e tr, crop_svg input (contents input) output padding = (.error e, tr) →
      main_run true false input output padding is_dir dir_entries glob_matches contents =
        (1, tr)) := by
  refine ⟨rfl, rfl, rfl, ?_, ?_⟩
  · intro r tr h
    simp [main_run, h]
  · intro e tr h
    simp [main_run, h]

/-- Witness for main_exit_code_behavior at concrete inputs. -/
theorem main_exit_code_behavior_witness :
    main_run false false "icon.svg" none 0 false [] [] malformedContents =
      (1, [Effect.printMissingCapability]) ∧
    (main_run true true "icon.svg" none 0 false [] [] malformedContents).1 = 0 ∧
    main_run true false "icon.svg" none 0 false [] [] malformedContents =
      (1, [Effect.printProcessing "icon.svg"]) :=
  ⟨(main_exit_code_behavior false "icon.svg" none 0 false [] [] malformedContents).1,
   (main_exit_code_behavior true "icon.svg" none 0 false [] [] malformedContents).2.2.1,
   (main_exit_code_behavior false "icon.svg" none 0 false [] [] malformedContents).2.2.2.2
     "ParseError" [Effect.printProcessing "icon.svg"] rfl⟩

/-- C8 counterexample: with svgpathtools available, single-file mode on an
unparsable file lets the exception escape, and the process terminates with
exit code 1, not 0 as claimed. -/
theorem single_file_failure_exit_counterexample :
    (main_run true false "bad.svg" none 0 false [] [] malformedContents).1 = 1 ∧
    (main_run true false "bad.svg" none 0 false [] [] malformedContents).1 ≠ 0 := by
  exact ⟨rfl, by decide⟩
